import Mathlib

/-!
Shallow embedding of the TripKit multi-agent pipeline design
(supervisor routing, recommendation scoring and selection, image
generation retry loop, content enrichment lookups, QA validation),
with theorems settling the specification claims against it.
-/

namespace TripKit

/-! ### Supervisor routing (`route_to_agent`) -/

/-- The `routing_map` dict literal inside `route_to_agent`. -/
def routing_map : List (String × String) :=
  [("init", "conversation_agent"),
   ("conversation", "recommendation_agent"),
   ("recommendation", "image_generation_agent"),
   ("image_generation", "content_enrichment_agent"),
   ("enrichment", "qa_agent"),
   ("qa", "complete")]

/-- Stage-reported flags carried in the orchestrator state dict.
`is_complete` and `is_approved` are read by the workflow's conditional
edges via `state.get`; the Python `TypedDict` does not declare them, so a
state dict may or may not carry them (absent keys read as falsy).
`rework_attempts` models an arbitrary extra key a dict could carry. -/
structure OrchestratorState where
  current_step : String
  is_complete : Bool
  is_approved : Bool
  rework_attempts : Nat
  errors : List String
deriving Repr, DecidableEq

/-- Embeds `route_to_agent`: `routing_map.get(step, "complete")`. -/
def route_to_agent (state : OrchestratorState) : String :=
  (routing_map.lookup state.current_step).getD "complete"

/-! ### Workflow conditional edges (`build_multi_agent_workflow`) -/

/-- Target of a LangGraph conditional edge: a named node or `END`. -/
inductive WorkflowTarget
  | node : String → WorkflowTarget
  | END : WorkflowTarget
deriving Repr, DecidableEq

/-- Embeds the conditional edge out of the `conversation` node:
`"recommendation" if state.get("is_complete") else "conversation"`. -/
def conversation_edge (state : OrchestratorState) : WorkflowTarget :=
  if state.is_complete then .node "recommendation" else .node "conversation"

/-- Embeds the conditional edge out of the `qa` node:
`END if state.get("is_approved") else "content_enrichment"`. -/
def qa_edge (state : OrchestratorState) : WorkflowTarget :=
  if state.is_approved then .END else .node "content_enrichment"

/-! ### Image generation retry loop (`generate_with_retry`) -/

/-- Outcome of one `openai_client.images.generate` call: a successful
response, a `BadRequestError` whose text mentions `content_policy`, a
`BadRequestError` that does not, a `RateLimitError`, or any other
exception. -/
inductive AttemptOutcome
  | success : String → String → AttemptOutcome
  | contentPolicyError : AttemptOutcome
  | badRequestOther : AttemptOutcome
  | rateLimitError : AttemptOutcome
  | otherError : String → AttemptOutcome
deriving Repr, DecidableEq

/-- How `generate_with_retry` ends: the success dict
(`url`, `revised_prompt`, `attempts`), a re-raised exception, or the
fall-through `{"success": False, "error": "Max retries exceeded"}`. -/
inductive RetryResult
  | ok : String → String → Nat → RetryResult
  | raised : AttemptOutcome → RetryResult
  | maxRetriesExceeded : RetryResult
deriving Repr, DecidableEq

/-- Observable trace of one `generate_with_retry` run: the result, the
`asyncio.sleep` delays performed in order (seconds), how many times
`sanitize_prompt` was applied, the `logger.error` messages recorded in
order, the prompt in force when the loop stopped, and the number of
image-API calls issued. -/
structure RetryTrace where
  result : RetryResult
  delays : List Nat
  sanitizations : Nat
  logged : List String
  final_prompt : String
  calls : Nat
deriving Repr, DecidableEq

/-- One loop iteration of `generate_with_retry`, indexed by remaining
fuel (`max_attempts - attempt`).  `san` is `sanitize_prompt` (defined
outside the excerpt), `oracle i` the outcome of the `i`-th API call. -/
def generate_go (san : String → String) (oracle : Nat → AttemptOutcome)
    (max_attempts : Nat) : Nat → Nat → String → RetryTrace
  | 0, _, prompt => ⟨.maxRetriesExceeded, [], 0, [], prompt, 0⟩
  | fuel + 1, attempt, prompt =>
    match oracle attempt with
    | .success url revised => ⟨.ok url revised (attempt + 1), [], 0, [], prompt, 1⟩
    | .contentPolicyError =>
      let t := generate_go san oracle max_attempts fuel (attempt + 1) (san prompt)
      { t with sanitizations := t.sanitizations + 1, calls := t.calls + 1 }
    | .badRequestOther => ⟨.raised .badRequestOther, [], 0, [], prompt, 1⟩
    | .rateLimitError =>
      let t := generate_go san oracle max_attempts fuel (attempt + 1) prompt
      { t with delays := 2 ^ attempt :: t.delays, calls := t.calls + 1 }
    | .otherError msg =>
      let entry := "Image generation attempt " ++ toString (attempt + 1) ++ " failed: " ++ msg
      if attempt = max_attempts - 1 then
        ⟨.raised (.otherError msg), [], 0, [entry], prompt, 1⟩
      else
        let t := generate_go san oracle max_attempts fuel (attempt + 1) prompt
        { t with logged := entry :: t.logged, calls := t.calls + 1 }

/-- Embeds `generate_with_retry(prompt, max_attempts)`: runs the
`for attempt in range(max_attempts)` loop from attempt 0. -/
def generate_with_retry (san : String → String) (oracle : Nat → AttemptOutcome)
    (max_attempts : Nat) (prompt : String) : RetryTrace :=
  generate_go san oracle max_attempts max_attempts 0 prompt

/-! ### Recommendation scoring and diversity selection -/

/-- Structured preference profile extracted by the Conversation stage. -/
structure VibeProfile where
  mood : String
  aesthetic : String
  duration : String
  interests : List String
deriving Repr, DecidableEq

/-- Candidate destination as consumed by `generate_recommendations`. -/
structure Destination where
  id : Nat
  name : String
  locality : String
  country : String
  description : String
  photography_score : ℚ
deriving Repr, DecidableEq

/-- Scored candidate (`dest` augmented with `match_score` / `match_reason`). -/
structure ScoredDest where
  dest : Destination
  match_score : ℚ
  match_reason : String
deriving Repr, DecidableEq

/-- Embeds the scoring loop of `generate_recommendations` (step 3 in the
source): `final_score = (vibe_score * 0.7) + (photo_score * 0.3)` with
`photo_score = dest.photography_score / 10`.  `calculate_vibe_match` and
`generate_match_reason` are defined outside the excerpt and are taken as
parameters. -/
def score_destinations (calculate_vibe_match : Destination → VibeProfile → ℚ)
    (generate_match_reason : Destination → VibeProfile → String)
    (vibe_profile : VibeProfile) (compatible_dests : List Destination) :
    List ScoredDest :=
  compatible_dests.map (fun dest =>
    ⟨dest,
     calculate_vibe_match dest vibe_profile * (7 / 10) +
       (dest.photography_score / 10) * (3 / 10),
     generate_match_reason dest vibe_profile⟩)

/-- Comparison used to iterate candidates by descending `match_score`. -/
def byScoreDesc (a b : ScoredDest) : Prop := b.match_score ≤ a.match_score

instance : DecidableRel byScoreDesc := fun a b =>
  inferInstanceAs (Decidable (b.match_score ≤ a.match_score))

instance : IsTotal ScoredDest byScoreDesc :=
  ⟨fun a b => le_total b.match_score a.match_score⟩

instance : IsTrans ScoredDest byScoreDesc :=
  ⟨fun _ _ _ h1 h2 => le_trans h2 h1⟩

/-- Locality or country already represented among the selected results. -/
def conflicts (d : ScoredDest) (selected : List ScoredDest) : Bool :=
  selected.any (fun s =>
    s.dest.locality == d.dest.locality || s.dest.country == d.dest.country)

/-- Modelled from the spec: the greedy pass of `select_diverse_destinations`
(the function body is not under `src/`; only its call site is).  Walks the
candidates in order, rejecting any whose locality/country is already
represented among the selected results, until `count` are chosen or the
pool is exhausted. -/
def pick_diverse : Nat → List ScoredDest → List ScoredDest → List ScoredDest
  | 0, _, _ => []
  | _ + 1, _, [] => []
  | n + 1, selected, d :: rest =>
    if conflicts d selected then pick_diverse (n + 1) selected rest
    else d :: pick_diverse n (d :: selected) rest

/-- Modelled from the spec: `select_diverse_destinations(scored, count)`
(body not under `src/`): iterate candidates by descending score enforcing
locality/country diversity; if the pool cannot fill `count` that way, the
diversity constraint is relaxed (dropped) before the result count is
reduced. -/
def select_diverse_destinations (scored_dests : List ScoredDest) (count : Nat) :
    List ScoredDest :=
  let sorted := List.insertionSort byScoreDesc scored_dests
  let diverse := pick_diverse count [] sorted
  if diverse.length = count then diverse else sorted.take count

/-- Embeds steps 3–4 of `generate_recommendations`: score the compatible
candidates, then `select_diverse_destinations(scored_dests, count=3)`. -/
def generate_recommendations (calculate_vibe_match : Destination → VibeProfile → ℚ)
    (generate_match_reason : Destination → VibeProfile → String)
    (vibe_profile : VibeProfile) (compatible_dests : List Destination) :
    List ScoredDest :=
  select_diverse_destinations
    (score_destinations calculate_vibe_match generate_match_reason vibe_profile
      compatible_dests) 3

/-! ### QA checklist validators and safety validation -/

/-- Destination record as the QA checklist reads it; optional fields model
the dict keys accessed through `.get`. -/
structure RecRecord where
  id : Nat
  matchReason : Option String
  photographyScore : Option Int
  safetyRating : Option Int
  description : Option String
deriving Repr, DecidableEq

/-- Return shape of each `QAChecklist` validator:
`passed = all(checks.values())`, the ordered check outcomes, and
`quality_score = sum(checks.values()) / len(checks)`. -/
structure QAReport where
  passed : Bool
  checks : List Bool
  quality_score : ℚ
deriving Repr, DecidableEq

/-- Builds the dict returned by each validator from its check list. -/
def mk_report (checks : List Bool) : QAReport :=
  ⟨checks.all id, checks, (checks.count true : ℚ) / (checks.length : ℚ)⟩

/-- Truthiness of an optional string field (`d.get(key)` in Python):
a present, non-empty string. -/
def truthy : Option String → Bool
  | none => false
  | some s => !(s == "")

/-- Embeds `QAChecklist.validate_recommendations`. -/
def validate_recommendations (destinations : List RecRecord) : QAReport :=
  mk_report
    [destinations.length == 3,
     destinations.all (fun d => truthy d.matchReason),
     destinations.all (fun d =>
       decide (1 ≤ d.photographyScore.getD 0 ∧ d.photographyScore.getD 0 ≤ 10)),
     destinations.all (fun d =>
       decide (1 ≤ d.safetyRating.getD 0 ∧ d.safetyRating.getD 0 ≤ 10)),
     destinations.all (fun d =>
       decide (50 ≤ (d.description.getD "").length ∧ (d.description.getD "").length ≤ 300)),
     (destinations.map (fun d => d.id)).dedup.length == destinations.length]

/-- Boolean test modelling the Python `str.startswith`: the second string
is a character-wise prefix of the first. -/
def startswith (s p : String) : Bool := p.toList.isPrefixOf s.toList

/-- Image payload as `QAChecklist.validate_image` reads it; `metadataKeys`
models the key set of the `metadata` sub-dict. -/
structure ImageData where
  url : Option String
  promptText : Option String
  metadataKeys : List String
  generationTime : Option ℚ
deriving Repr, DecidableEq

/-- Embeds `QAChecklist.validate_image`. -/
def validate_image (image_data : ImageData) : QAReport :=
  mk_report
    [truthy image_data.url && startswith (image_data.url.getD "") "https://",
     truthy image_data.promptText,
     ["model", "size", "quality"].all (fun k => image_data.metadataKeys.contains k),
     decide (image_data.generationTime.getD 99999 < 30000)]

/-- The `filmStock` sub-dict as `validate_styling_package` reads it. -/
structure FilmStockDict where
  name : Option String
deriving Repr, DecidableEq

/-- Styling payload as `QAChecklist.validate_styling_package` reads it. -/
structure StylingDict where
  cameraModel : Option String
  filmStock : Option FilmStockDict
  cameraSettingsKeys : List String
  outfitColorPalette : Option (List String)
  props : List String
  bestAngles : List String
deriving Repr, DecidableEq

/-- Embeds `QAChecklist.validate_styling_package`. -/
def validate_styling_package (styling : StylingDict) : QAReport :=
  mk_report
    [truthy styling.cameraModel,
     (match styling.filmStock with
      | none => false
      | some fs => truthy fs.name),
     ["aperture", "shutterSpeed", "iso"].all (fun k => styling.cameraSettingsKeys.contains k),
     (match styling.outfitColorPalette with
      | none => false
      | some p => !p.isEmpty),
     decide (2 ≤ styling.props.length ∧ styling.props.length ≤ 4),
     decide (3 ≤ styling.bestAngles.length ∧ styling.bestAngles.length ≤ 5)]

/-- Verdict of the moderation capability (`moderation_result.results[0]`). -/
structure ModerationResult where
  flagged : Bool
  categories : List String
deriving Repr, DecidableEq

/-- Return shape of `validate_safety`. -/
structure SafetyResult where
  text_safe : Bool
  image_safe : Bool
  categories : List String
  approved : Bool
deriving Repr, DecidableEq

/-- Embeds `validate_safety`: `text_safe = not flagged`,
`image_safe = True` (placeholder in the source),
`approved = not flagged and image_safe`. -/
def validate_safety (moderation : ModerationResult) : SafetyResult :=
  let image_safe := true
  ⟨!moderation.flagged, image_safe, moderation.categories,
   !moderation.flagged && image_safe⟩

/-- Modelled from the spec: the overall QA approval
(`approved = all_checklists_passed AND moderation_clear`); the
aggregation code is not under `src/`, only the per-category validators
and `validate_safety` are. -/
def qa_overall (recs : List RecRecord) (img : ImageData) (styling : StylingDict)
    (moderation : ModerationResult) : Bool :=
  (validate_recommendations recs).passed &&
    (validate_image img).passed &&
    (validate_styling_package styling).passed &&
    (validate_safety moderation).approved

/-! ### Post-generation image quality validation (`validate_image_quality`) -/

/-- Embeds `validate_image_quality(image_url)`.  `fetched` models the
download-and-open step: `some (width, height)` when the dimensions are
obtainable, `none` when the download or decode raises (the `except`
branch returns `False`). -/
def validate_image_quality (image_url : String) (fetched : Option (Nat × Nat)) : Bool :=
  if image_url == "" || !startswith image_url "https://" then false
  else
    match fetched with
    | none => false
    | some (width, height) =>
      if width < 1024 ∨ height < 1024 then false else true

/-- Modelled from the spec: the image stage treats a failed
post-generation validation as a soft failure retried within the attempt
budget (the wiring that calls `validate_image_quality` from the retry
loop is not under `src/`).  `oracle i` yields the `i`-th attempt's asset
URL and fetched dimensions; the loop accepts the first attempt that
validates, returning its URL and the attempt count. -/
def generate_validate_go (oracle : Nat → String × Option (Nat × Nat)) :
    Nat → Nat → Option (String × Nat)
  | 0, _ => none
  | fuel + 1, attempt =>
    let r := oracle attempt
    if validate_image_quality r.1 r.2 then some (r.1, attempt + 1)
    else generate_validate_go oracle fuel (attempt + 1)

/-- Modelled from the spec: runs the validated generation loop from
attempt 0 with the given budget. -/
def generate_validate_loop (oracle : Nat → String × Option (Nat × Nat))
    (max_attempts : Nat) : Option (String × Nat) :=
  generate_validate_go oracle max_attempts 0

/-! ### Content enrichment lookups -/

/-- One row of `CAMERA_DATABASE`. -/
structure CameraConfig where
  primary : String
  alternative : List String
  reasoning : String
deriving Repr, DecidableEq

/-- The `"filmlog"` row, the fallback of `CAMERA_DATABASE.get`. -/
def camera_filmlog : CameraConfig :=
  ⟨"Canon AE-1", ["Nikon FM2", "Pentax K1000"],
   "Reliable SLRs with manual controls for vintage aesthetic"⟩

/-- Embeds the `CAMERA_DATABASE` dict literal. -/
def CAMERA_DATABASE : List (String × CameraConfig) :=
  [("flaneur",
    ⟨"Leica M6", ["Olympus Trip 35", "Contax T2"],
     "Compact, discreet cameras for urban wandering"⟩),
   ("filmlog", camera_filmlog),
   ("midnight",
    ⟨"Hasselblad 500C/M", ["Mamiya RB67", "Pentax 67"],
     "Medium format for artistic, dreamlike quality"⟩)]

/-- Return shape of `recommend_camera`. -/
structure CameraRec where
  model : String
  alternatives : List String
  reasoning : String
  rental_info : String
  buy_links : List String
deriving Repr, DecidableEq

/-- Embeds `recommend_camera`:
`config = CAMERA_DATABASE.get(concept, CAMERA_DATABASE["filmlog"])`.
`get_rental_info` / `get_purchase_links` are outside the excerpt and are
parameters; `budget` is accepted and unused, as in the source. -/
def recommend_camera (get_rental_info : String → String)
    (get_purchase_links : String → List String)
    (concept : String) (budget : String) : CameraRec :=
  let config := (CAMERA_DATABASE.lookup concept).getD camera_filmlog
  ⟨config.primary, config.alternative, config.reasoning,
   get_rental_info config.primary, get_purchase_links config.primary⟩

/-- The `"filmlog"` palette, the fallback of `base_palettes.get`. -/
def palette_filmlog : List String := ["#F5E6D3", "#8B7355", "#A0826D", "#FFFFFF"]

/-- Embeds the `base_palettes` dict literal of `generate_outfit_suggestions`. -/
def base_palettes : List (String × List String) :=
  [("flaneur", ["#2C3E50", "#ECF0F1", "#34495E", "#BDC3C7"]),
   ("filmlog", palette_filmlog),
   ("midnight", ["#191970", "#4B0082", "#2F4F4F", "#C0C0C0"])]

/-- One row of the `seasonal_modifiers` dict. -/
structure SeasonConfig where
  add_colors : List String
  fabrics : List String
deriving Repr, DecidableEq

/-- The `"spring"` row, the fallback of `seasonal_modifiers.get`. -/
def season_spring : SeasonConfig :=
  ⟨["pastel pink", "light green"], ["cotton", "linen"]⟩

/-- Embeds the `seasonal_modifiers` dict literal. -/
def seasonal_modifiers : List (String × SeasonConfig) :=
  [("spring", season_spring),
   ("summer", ⟨["white", "light blue"], ["linen", "breathable cotton"]⟩),
   ("fall", ⟨["burgundy", "mustard"], ["wool", "denim"]⟩),
   ("winter", ⟨["navy", "charcoal"], ["wool", "cashmere"]⟩)]

/-- Return shape of `generate_outfit_suggestions`. -/
structure OutfitSuggestion where
  color_palette : List String
  color_names : List String
  seasonal_additions : List String
  recommended_fabrics : List String
  specific_items : List String
  avoid_items : List String
  shopping_tips : List String
deriving Repr, DecidableEq

/-- Embeds `generate_outfit_suggestions`; the helper generators
(`get_color_names`, `generate_specific_items`, `get_avoid_items`,
`generate_shopping_tips`) are outside the excerpt and are parameters;
`color_preferences` is accepted and unused, as in the source. -/
def generate_outfit_suggestions (get_color_names : List String → List String)
    (generate_specific_items : String → String → String → List String)
    (get_avoid_items : String → List String)
    (generate_shopping_tips : String → List String)
    (concept season weather : String) (color_preferences : List String) :
    OutfitSuggestion :=
  let palette := (base_palettes.lookup concept).getD palette_filmlog
  let season_config := (seasonal_modifiers.lookup season).getD season_spring
  let items := generate_specific_items concept season weather
  ⟨palette, get_color_names palette, season_config.add_colors,
   season_config.fabrics, items, get_avoid_items concept,
   generate_shopping_tips concept⟩

/-- One row of a `PROPS_DATABASE` list. -/
structure PropInfo where
  name : String
  purpose : String
deriving Repr, DecidableEq

/-- The `"filmlog"` props, the fallback of `PROPS_DATABASE.get`. -/
def props_filmlog : List PropInfo :=
  [⟨"Vintage Polaroid camera", "Nostalgic layering"⟩,
   ⟨"Film photography book", "Artistic context"⟩,
   ⟨"Woven basket", "Vintage travel charm"⟩]

/-- Embeds the `PROPS_DATABASE` dict literal. -/
def PROPS_DATABASE : List (String × List PropInfo) :=
  [("flaneur",
    [⟨"Vintage book", "Literary wanderer aesthetic"⟩,
     ⟨"City map", "Navigation storytelling element"⟩,
     ⟨"Coffee in thermos", "Urban explorer vibe"⟩]),
   ("filmlog", props_filmlog),
   ("midnight",
    [⟨"Vintage pocket watch", "Time travel symbolism"⟩,
     ⟨"Leather-bound journal", "Artistic documentation"⟩,
     ⟨"Antique monocular", "Poetic observation tool"⟩])]

/-- Prop dict after the sourcing/styling enrichment pass. -/
structure EnrichedProp where
  name : String
  purpose : String
  where_to_find : String
  styling_tips : String
deriving Repr, DecidableEq

/-- Embeds `recommend_props`:
`base_props = PROPS_DATABASE.get(concept, PROPS_DATABASE["filmlog"])`,
location-specific append, `base_props[:count]`, then enrichment.
`generate_sourcing_info` / `generate_styling_tips` are parameters. -/
def recommend_props (generate_sourcing_info : String → String)
    (generate_styling_tips : String → String → String)
    (concept location_type : String) (count : Nat) : List EnrichedProp :=
  let base_props := (PROPS_DATABASE.lookup concept).getD props_filmlog
  let base_props :=
    if location_type == "coastal" then
      base_props ++ [⟨"Seashell collection jar", "Coastal memory keeper"⟩]
    else if location_type == "urban" then
      base_props ++ [⟨"Vintage metro ticket", "Urban exploration token"⟩]
    else base_props
  (base_props.take count).map (fun p =>
    ⟨p.name, p.purpose, generate_sourcing_info p.name,
     generate_styling_tips p.name concept⟩)

/-! ### Concrete runs used to exercise the definitions -/

/-- Oracle run: generic errors on attempts 0 and 1, success on attempt 2. -/
def oracle_other_other_success : Nat → AttemptOutcome := fun n =>
  if n < 2 then .otherError "boom" else .success "u" "r"

/-- Oracle run: rate limits on attempts 0 and 1, success on attempt 2. -/
def oracle_rate_limit_success : Nat → AttemptOutcome := fun n =>
  if n < 2 then .rateLimitError else .success "u" "r"

/-- Oracle run: every attempt hits the rate limit. -/
def oracle_all_rate_limit : Nat → AttemptOutcome := fun _ => .rateLimitError

/-- Image-and-dimensions oracle: attempt 0 yields unobtainable dimensions,
later attempts a 1024x1536 image. -/
def image_oracle : Nat → String × Option (Nat × Nat) := fun n =>
  if n = 0 then ("https://img.example/a.png", none)
  else ("https://img.example/a.png", some (1024, 1536))

/-- Concrete candidate pool with three distinct destinations. -/
def witness_pool : List Destination :=
  [⟨1, "Alfama", "Lisbon", "Portugal", "Old quarter", 10⟩,
   ⟨2, "Gion", "Kyoto", "Japan", "Historic district", 5⟩,
   ⟨3, "Trastevere", "Rome", "Italy", "Riverside quarter", 0⟩]

/-- Concrete preference profile. -/
def witness_profile : VibeProfile := ⟨"romantic", "vintage", "medium", ["photography"]⟩

/-! ## Helper lemmas -/

theorem generate_go_calls_le (san : String → String) (oracle : Nat → AttemptOutcome)
    (max_attempts : Nat) :
    ∀ fuel attempt prompt,
      (generate_go san oracle max_attempts fuel attempt prompt).calls ≤ fuel := by
  intro fuel
  induction fuel with
  | zero => intro attempt prompt; simp [generate_go]
  | succ n ih =>
    intro attempt prompt
    simp only [generate_go]
    cases h : oracle attempt with
    | success u r => simp
    | contentPolicyError => simpa using Nat.succ_le_succ (ih _ _)
    | badRequestOther => simp
    | rateLimitError => simpa using Nat.succ_le_succ (ih _ _)
    | otherError m =>
      by_cases hc : attempt = max_attempts - 1
      · simp [hc]
      · simpa [hc] using Nat.succ_le_succ (ih _ _)

theorem generate_go_no_success (san : String → String) (oracle : Nat → AttemptOutcome)
    (max_attempts : Nat) (hn : ∀ i u r, oracle i ≠ .success u r) :
    ∀ fuel attempt prompt u r a,
      (generate_go san oracle max_attempts fuel attempt prompt).result ≠ .ok u r a := by
  intro fuel
  induction fuel with
  | zero => intro attempt prompt u r a; simp [generate_go]
  | succ n ih =>
    intro attempt prompt u r a
    simp only [generate_go]
    cases h : oracle attempt with
    | success u2 r2 => exact absurd h (hn _ _ _)
    | contentPolicyError => simpa using ih _ _ u r a
    | badRequestOther => simp
    | rateLimitError => simpa using ih _ _ u r a
    | otherError m =>
      by_cases hc : attempt = max_attempts - 1
      · simp [hc]
      · simpa [hc] using ih _ _ u r a

theorem generate_go_all_rate_limit (san : String → String)
    (oracle : Nat → AttemptOutcome) (max_attempts : Nat) :
    ∀ fuel attempt prompt,
      (∀ i, attempt ≤ i → i < attempt + fuel → oracle i = .rateLimitError) →
      generate_go san oracle max_attempts fuel attempt prompt =
        ⟨.maxRetriesExceeded, (List.range' attempt fuel).map (fun i => 2 ^ i), 0, [],
          prompt, fuel⟩ := by
  intro fuel
  induction fuel with
  | zero => intro attempt prompt _; simp [generate_go]
  | succ n ih =>
    intro attempt prompt h
    have h0 : oracle attempt = .rateLimitError := h attempt (le_refl _) (by omega)
    have hrec := ih (attempt + 1) prompt (fun i hi1 hi2 => h i (by omega) (by omega))
    simp only [generate_go, h0, hrec, List.range'_succ, List.map_cons]

theorem generate_go_policy_then_success (san : String → String)
    (oracle : Nat → AttemptOutcome) (max_attempts : Nat) (u r : String) :
    ∀ k fuel attempt prompt,
      (∀ i, attempt ≤ i → i < attempt + k → oracle i = .contentPolicyError) →
      oracle (attempt + k) = .success u r → k < fuel →
      generate_go san oracle max_attempts fuel attempt prompt =
        ⟨.ok u r (attempt + k + 1), [], k, [], san^[k] prompt, k + 1⟩ := by
  intro k
  induction k with
  | zero =>
    intro fuel attempt prompt _ hs hk
    match fuel, hk with
    | n + 1, _ =>
      simp only [Nat.add_zero] at hs
      simp [generate_go, hs]
  | succ m ih =>
    intro fuel attempt prompt hcp hs hk
    match fuel, hk with
    | n + 1, hk =>
      have h0 : oracle attempt = .contentPolicyError := hcp attempt (le_refl _) (by omega)
      have hrec := ih n (attempt + 1) (san prompt)
        (fun i hi1 hi2 => hcp i (by omega) (by omega))
        (by rw [show attempt + 1 + m = attempt + (m + 1) by omega]; exact hs) (by omega)
      have e1 : attempt + 1 + m = attempt + (m + 1) := by omega
      simp only [generate_go, h0]
      rw [hrec, e1, ← Function.iterate_succ_apply]

theorem generate_go_all_other (san : String → String) (oracle : Nat → AttemptOutcome)
    (max_attempts : Nat) (msg : String) :
    ∀ fuel attempt prompt, attempt + fuel = max_attempts → 0 < fuel →
      (∀ i, attempt ≤ i → i < max_attempts → oracle i = .otherError msg) →
      (generate_go san oracle max_attempts fuel attempt prompt).result =
          .raised (.otherError msg) ∧
        (generate_go san oracle max_attempts fuel attempt prompt).calls = fuel := by
  intro fuel
  induction fuel with
  | zero => intro attempt prompt _ h0; omega
  | succ n ih =>
    intro attempt prompt heq _ hall
    have h0 : oracle attempt = .otherError msg := hall attempt (le_refl _) (by omega)
    by_cases hn : n = 0
    · subst hn
      have hc : attempt = max_attempts - 1 := by omega
      subst hc
      simp [generate_go, h0]
    · have hc : ¬ attempt = max_attempts - 1 := by omega
      have hrec := ih (attempt + 1) prompt (by omega) (by omega)
        (fun i hi1 hi2 => hall i (by omega) hi2)
      simp only [generate_go, h0, hc, if_false]
      constructor
      · simpa using hrec.1
      · simpa using hrec.2

theorem pick_diverse_sublist (n : Nat) (sel l : List ScoredDest) :
    List.Sublist (pick_diverse n sel l) l := by
  induction l generalizing n sel with
  | nil => cases n <;> simp [pick_diverse]
  | cons d rest ih =>
    cases n with
    | zero => simp [pick_diverse]
    | succ m =>
      simp only [pick_diverse]
      by_cases h : conflicts d sel = true
      · simp only [h, if_true]
        exact (ih _ _).cons _
      · simp only [h, if_false]
        exact (ih _ _).cons₂ _

theorem select_diverse_sublist (scored : List ScoredDest) (count : Nat) :
    List.Sublist (select_diverse_destinations scored count)
      (List.insertionSort byScoreDesc scored) := by
  unfold select_diverse_destinations
  by_cases h :
      (pick_diverse count [] (List.insertionSort byScoreDesc scored)).length = count
  · simpa [h] using pick_diverse_sublist count [] _
  · simpa [h] using List.take_sublist count _

theorem select_diverse_length (scored : List ScoredDest) (count : Nat)
    (h : count ≤ scored.length) :
    (select_diverse_destinations scored count).length = count := by
  unfold select_diverse_destinations
  by_cases hd :
      (pick_diverse count [] (List.insertionSort byScoreDesc scored)).length = count
  · simp [hd]
  · have hlen : (List.insertionSort byScoreDesc scored).length = scored.length :=
      (List.perm_insertionSort byScoreDesc scored).length_eq
    simp [hd, List.length_take, hlen]
    omega

theorem validate_image_quality_none (url : String) :
    validate_image_quality url none = false := by
  unfold validate_image_quality
  by_cases h : (url == "" || !startswith url "https://") = true <;> simp [h]

theorem generate_validate_go_skip (oracle : Nat → String × Option (Nat × Nat)) :
    ∀ k fuel attempt, (∀ i, attempt ≤ i → i < attempt + k → (oracle i).2 = none) →
      validate_image_quality (oracle (attempt + k)).1 (oracle (attempt + k)).2 = true →
      k < fuel →
      generate_validate_go oracle fuel attempt =
        some ((oracle (attempt + k)).1, attempt + k + 1) := by
  intro k
  induction k with
  | zero =>
    intro fuel attempt _ hv hk
    match fuel, hk with
    | n + 1, _ =>
      simp only [Nat.add_zero] at hv ⊢
      simp [generate_validate_go, hv]
  | succ m ih =>
    intro fuel attempt hnone hv hk
    match fuel, hk with
    | n + 1, hk =>
      have h0 : (oracle attempt).2 = none := hnone attempt (le_refl _) (by omega)
      have hv0 : validate_image_quality (oracle attempt).1 (oracle attempt).2 = false := by
        rw [h0]; exact validate_image_quality_none _
      have hrec := ih n (attempt + 1) (fun i hi1 hi2 => hnone i (by omega) (by omega))
        (by rw [show attempt + 1 + m = attempt + (m + 1) by omega]; exact hv) (by omega)
      simp only [generate_validate_go, hv0, Bool.false_eq_true, if_false, hrec]
      rw [show attempt + 1 + m = attempt + (m + 1) by omega]

theorem generate_validate_go_sound (oracle : Nat → String × Option (Nat × Nat)) :
    ∀ fuel attempt url n, generate_validate_go oracle fuel attempt = some (url, n) →
      n ≤ attempt + fuel ∧ attempt < n ∧ (oracle (n - 1)).1 = url ∧
        validate_image_quality (oracle (n - 1)).1 (oracle (n - 1)).2 = true := by
  intro fuel
  induction fuel with
  | zero => intro attempt url n h; simp [generate_validate_go] at h
  | succ m ih =>
    intro attempt url n h
    simp only [generate_validate_go] at h
    by_cases hv : validate_image_quality (oracle attempt).1 (oracle attempt).2 = true
    · simp only [hv, if_true, Option.some.injEq, Prod.mk.injEq] at h
      obtain ⟨h1, h2⟩ := h
      subst h2
      exact ⟨by omega, by omega, by simpa using h1, by simpa using hv⟩
    · simp only [hv, if_false] at h
      have hr := ih (attempt + 1) url n h
      exact ⟨by omega, by omega, hr.2.2.1, hr.2.2.2⟩

/-! ## Claim theorems -/

/-- C1 counterexample: the step `"complete"` is absent from the routing
table, yet `route_to_agent` silently maps it to `"complete"` instead of
the absence being detected as a design error — refuting the claim that an
unmapped (state, flag-set) combination is caught rather than silently
mapped to some state. -/
theorem c1_unmapped_step_mapped_silently :
    routing_map.lookup "complete" = none ∧
      route_to_agent ⟨"complete", false, false, 0, []⟩ = "complete" := by
  exact ⟨rfl, rfl⟩

/-- C1 (amended): the Supervisor's routing is deterministic and total —
a pure function of the current step with every flag combination mapped to
exactly one next state — but a step absent from the routing table is
silently mapped to `"complete"` by the `.get` default, not detected as a
design error at startup. -/
theorem c1_routing_deterministic_total_with_fallback (st : OrchestratorState) :
    (∃! next, route_to_agent st = next) ∧
    (∀ st2 : OrchestratorState, st2.current_step = st.current_step →
      route_to_agent st2 = route_to_agent st) ∧
    (st.current_step ∉ routing_map.map Prod.fst → route_to_agent st = "complete") := by
  refine ⟨⟨route_to_agent st, rfl, fun y hy => hy.symm⟩, ?_, ?_⟩
  · intro st2 h
    simp [route_to_agent, h]
  · intro h
    simp [routing_map] at h
    push_neg at h
    obtain ⟨h1, h2, h3, h4, h5, h6⟩ := h
    simp [route_to_agent, routing_map, List.lookup,
      beq_eq_false_iff_ne.mpr h1, beq_eq_false_iff_ne.mpr h2, beq_eq_false_iff_ne.mpr h3,
      beq_eq_false_iff_ne.mpr h4, beq_eq_false_iff_ne.mpr h5, beq_eq_false_iff_ne.mpr h6]

/-- C1 witness: the amended routing theorem applied to a concrete state
whose step `"failed"` is not a routing-table key. -/
theorem c1_routing_fallback_witness :
    route_to_agent ⟨"failed", false, true, 1, []⟩ = "complete" :=
  (c1_routing_deterministic_total_with_fallback ⟨"failed", false, true, 1, []⟩).2.2
    (by decide)

/-- C2 (spec-modelled selection): a completed Recommendation output —
the diversity selection applied to the scored compatible candidates —
contains exactly 3 records, no two records share a destination id, and
the match scores are non-increasing in presentation order, provided the
candidate pool has at least 3 destinations with pairwise distinct ids. -/
theorem c2_recommendation_output_invariant
    (calculate_vibe_match : Destination → VibeProfile → ℚ)
    (generate_match_reason : Destination → VibeProfile → String)
    (vibe_profile : VibeProfile) (compatible_dests : List Destination)
    (hlen : 3 ≤ compatible_dests.length)
    (hids : (compatible_dests.map (fun d => d.id)).Nodup) :
    (generate_recommendations calculate_vibe_match generate_match_reason vibe_profile
        compatible_dests).length = 3 ∧
    ((generate_recommendations calculate_vibe_match generate_match_reason vibe_profile
        compatible_dests).map (fun r => r.dest.id)).Nodup ∧
    ((generate_recommendations calculate_vibe_match generate_match_reason vibe_profile
        compatible_dests).map (fun r => r.match_score)).Sorted (· ≥ ·) := by
  unfold generate_recommendations
  set scored := score_destinations calculate_vibe_match generate_match_reason
    vibe_profile compatible_dests with hscored
  have hslen : scored.length = compatible_dests.length := by
    simp [hscored, score_destinations]
  have hsids : scored.map (fun r => r.dest.id) = compatible_dests.map (fun d => d.id) := by
    simp [hscored, score_destinations]
  have hperm : List.Perm (List.insertionSort byScoreDesc scored) scored :=
    List.perm_insertionSort byScoreDesc scored
  have hsub : List.Sublist (select_diverse_destinations scored 3)
      (List.insertionSort byScoreDesc scored) := select_diverse_sublist scored 3
  refine ⟨select_diverse_length scored 3 (by omega), ?_, ?_⟩
  · have hnodup :
        ((List.insertionSort byScoreDesc scored).map (fun r => r.dest.id)).Nodup := by
      refine ((hperm.map (fun r => r.dest.id)).nodup_iff).mpr ?_
      rw [hsids]; exact hids
    exact (hsub.map (fun r => r.dest.id)).nodup hnodup
  · have hsorted : List.Sorted byScoreDesc (List.insertionSort byScoreDesc scored) :=
      List.sorted_insertionSort byScoreDesc scored
    exact List.Pairwise.map _ (fun _ _ hab => hab) (hsorted.sublist hsub)

/-- C2 witness: the invariant theorem applied to a concrete pool of three
distinct destinations. -/
theorem c2_recommendation_output_invariant_witness :
    (3 ≤ witness_pool.length ∧ (witness_pool.map (fun d => d.id)).Nodup) ∧
    (generate_recommendations (fun _ _ => 0) (fun _ _ => "because") witness_profile
        witness_pool).length = 3 :=
  ⟨⟨by decide, by decide⟩,
    (c2_recommendation_output_invariant (fun _ _ => 0) (fun _ _ => "because")
      witness_profile witness_pool (by decide) (by decide)).1⟩

/-- C3 counterexample: with N=3 and generic (neither content-policy nor
rate-limit) errors on attempts 1 and 2, the loop issues a third call and
reports success with `attempts=3` — refuting the claim that any other
error is retried once and then treated as fatal. -/
theorem c3_other_error_retried_beyond_once :
    (generate_with_retry id oracle_other_other_success 3 "p").calls = 3 ∧
      (generate_with_retry id oracle_other_other_success 3 "p").result = .ok "u" "r" 3 := by
  exact ⟨rfl, rfl⟩

/-- C3 (amended): the retry loop makes at most N calls; content-policy
rejections sanitize the prompt and retry immediately with no backoff
delay; rate-limit responses wait `2 ^ attempt` seconds (base delay
doubling per attempt) before retrying; a non-content-policy bad request
raises immediately with no retry; any other error is retried on every
non-final attempt and raised on the final one — not merely retried once. -/
theorem c3_retry_policy_amended (san : String → String) (oracle : Nat → AttemptOutcome)
    (max_attempts : Nat) (prompt : String) :
    ((generate_with_retry san oracle max_attempts prompt).calls ≤ max_attempts) ∧
    (∀ k u r, (∀ i, i < k → oracle i = .contentPolicyError) → oracle k = .success u r →
      k < max_attempts →
      generate_with_retry san oracle max_attempts prompt =
        ⟨.ok u r (k + 1), [], k, [], san^[k] prompt, k + 1⟩) ∧
    ((∀ i, i < max_attempts → oracle i = .rateLimitError) →
      generate_with_retry san oracle max_attempts prompt =
        ⟨.maxRetriesExceeded, (List.range max_attempts).map (fun i => 2 ^ i), 0, [],
          prompt, max_attempts⟩) ∧
    (oracle 0 = .badRequestOther → 0 < max_attempts →
      generate_with_retry san oracle max_attempts prompt =
        ⟨.raised .badRequestOther, [], 0, [], prompt, 1⟩) ∧
    (∀ msg, (∀ i, i < max_attempts → oracle i = .otherError msg) → 0 < max_attempts →
      (generate_with_retry san oracle max_attempts prompt).result =
          .raised (.otherError msg) ∧
        (generate_with_retry san oracle max_attempts prompt).calls = max_attempts) := by
  refine ⟨generate_go_calls_le san oracle max_attempts max_attempts 0 prompt,
    ?_, ?_, ?_, ?_⟩
  · intro k u r hcp hs hk
    have h := generate_go_policy_then_success san oracle max_attempts u r k
      max_attempts 0 prompt (fun i _ hi2 => hcp i (by omega)) (by simpa using hs) hk
    simpa [generate_with_retry] using h
  · intro hrl
    have h := generate_go_all_rate_limit san oracle max_attempts max_attempts 0 prompt
      (fun i _ hi2 => hrl i (by omega))
    simpa [generate_with_retry, List.range_eq_range'] using h
  · intro h0 hmax
    match max_attempts, hmax with
    | n + 1, _ => simp [generate_with_retry, generate_go, h0]
  · intro msg hall hmax
    have h := generate_go_all_other san oracle max_attempts msg max_attempts 0 prompt
      (by omega) hmax (fun i _ hi2 => hall i hi2)
    exact ⟨h.1, h.2⟩

/-- C3 witness: the amended retry theorem applied to a run whose three
attempts all hit the rate limit, exhibiting the doubling backoff delays
1, 2, 4 and the max-retries failure result. -/
theorem c3_retry_policy_amended_witness :
    generate_with_retry id oracle_all_rate_limit 3 "p" =
      ⟨.maxRetriesExceeded, [1, 2, 4], 0, [], "p", 3⟩ :=
  ((c3_retry_policy_amended id oracle_all_rate_limit 3 "p").2.2.1
    (fun _ _ => rfl)).trans (by decide)

/-- C4 counterexample: with N=3, rate limits on attempts 1 and 2 and
success on attempt 3, the run reports success with `attempts=3`, but the
recorded failure reasons are empty (`logger.error` is the loop's only
recording and the rate-limit branch never invokes it) — refuting the
claim that two per-attempt failure reasons are recorded. -/
theorem c4_no_failure_reasons_recorded :
    (generate_with_retry id oracle_rate_limit_success 3 "p").result = .ok "u" "r" 3 ∧
      (generate_with_retry id oracle_rate_limit_success 3 "p").logged = [] := by
  exact ⟨rfl, rfl⟩

/-- C4 (amended): for N=3, a run with rate limits on attempts 1 and 2 and
success on attempt 3 reports success with `attempts=3` after backoff
waits of 1 and 2 seconds, recording no per-attempt failure reasons; a run
whose three attempts never succeed reports a fatal outcome (a raised
exception or the max-retries failure result), never a success dict. -/
theorem c4_retry_budget_amended (san : String → String) (oracle : Nat → AttemptOutcome)
    (prompt u r : String) :
    (oracle 0 = .rateLimitError → oracle 1 = .rateLimitError → oracle 2 = .success u r →
      generate_with_retry san oracle 3 prompt = ⟨.ok u r 3, [1, 2], 0, [], prompt, 3⟩) ∧
    ((∀ i u2 r2, oracle i ≠ .success u2 r2) →
      ∀ u2 r2 a, (generate_with_retry san oracle 3 prompt).result ≠ .ok u2 r2 a) := by
  constructor
  · intro h0 h1 h2
    simp [generate_with_retry, generate_go, h0, h1, h2]
  · intro hn u2 r2 a
    exact generate_go_no_success san oracle 3 hn 3 0 prompt u2 r2 a

/-- C4 witness: the amended theorem applied to the concrete
rate-limit/rate-limit/success run. -/
theorem c4_retry_budget_amended_witness :
    generate_with_retry id oracle_rate_limit_success 3 "p" =
      ⟨.ok "u" "r" 3, [1, 2], 0, [], "p", 3⟩ :=
  (c4_retry_budget_amended id oracle_rate_limit_success "p" "u" "r").1 rfl rfl rfl

/-- C5 (spec-modelled aggregation): the overall QA approval is the
conjunction of all checklist categories passing and the moderation check
being clear; whenever the moderation result is flagged, the approval is
false regardless of the checklist outcomes. -/
theorem c5_overall_approval_conjunction (recs : List RecRecord) (img : ImageData)
    (styling : StylingDict) (moderation : ModerationResult) :
    (moderation.flagged = true → qa_overall recs img styling moderation = false) ∧
    (qa_overall recs img styling moderation = true ↔
      (validate_recommendations recs).passed = true ∧
      (validate_image img).passed = true ∧
      (validate_styling_package styling).passed = true ∧
      moderation.flagged = false) := by
  constructor
  · intro h
    simp [qa_overall, validate_safety, h]
  · simp [qa_overall, validate_safety, Bool.and_eq_true, and_assoc]

/-- C5 witness: the approval theorem applied to a flagged moderation
verdict over concrete (empty) content, giving `approved = false`. -/
theorem c5_overall_approval_conjunction_witness :
    qa_overall [] ⟨none, none, [], none⟩ ⟨none, none, [], none, [], []⟩
      ⟨true, ["violence"]⟩ = false :=
  (c5_overall_approval_conjunction [] ⟨none, none, [], none⟩
    ⟨none, none, [], none, [], []⟩ ⟨true, ["violence"]⟩).1 rfl

/-- C6 counterexample: with QA rejecting (`is_approved = false`) and the
rework count at the budget (2), the workflow's conditional edge routes to
`content_enrichment`, not to a `failed` state — refuting the claim that
reaching the budget transitions the session to failed. -/
theorem c6_qa_reject_at_budget_routes_enrichment :
    qa_edge ⟨"qa", false, false, 2, []⟩ = .node "content_enrichment" ∧
      qa_edge ⟨"qa", false, false, 2, []⟩ ≠ .node "failed" := by
  exact ⟨rfl, by decide⟩

/-- C6 (amended): whenever QA rejects, the workflow routes back to
`content_enrichment` regardless of the rework-attempt count — no bounded
budget or `failed` transition exists; when QA approves, the workflow
ends. -/
theorem c6_qa_reject_always_enrichment (st : OrchestratorState) :
    (st.is_approved = false → qa_edge st = .node "content_enrichment") ∧
    (st.is_approved = true → qa_edge st = .END) ∧
    (∀ n, qa_edge { st with rework_attempts := n } = qa_edge st) := by
  refine ⟨fun h => ?_, fun h => ?_, fun n => ?_⟩
  · simp [qa_edge, h]
  · simp [qa_edge, h]
  · simp [qa_edge]

/-- C6 witness: the amended routing theorem applied to a concrete
rejecting state. -/
theorem c6_qa_reject_always_enrichment_witness :
    qa_edge ⟨"qa", true, false, 0, []⟩ = .node "content_enrichment" :=
  (c6_qa_reject_always_enrichment ⟨"qa", true, false, 0, []⟩).1 rfl

/-- C7: every candidate surviving the compatibility filter is scored as
0.7 times the vibe similarity plus 0.3 times the photogenic score divided
by 10. -/
theorem c7_match_score_formula (calculate_vibe_match : Destination → VibeProfile → ℚ)
    (generate_match_reason : Destination → VibeProfile → String)
    (vibe_profile : VibeProfile) (compatible_dests : List Destination) :
    ∀ rec ∈ score_destinations calculate_vibe_match generate_match_reason vibe_profile
        compatible_dests,
      rec.match_score = 0.7 * calculate_vibe_match rec.dest vibe_profile +
        0.3 * (rec.dest.photography_score / 10) := by
  intro rec hrec
  simp only [score_destinations, List.mem_map] at hrec
  obtain ⟨d, _, rfl⟩ := hrec
  norm_num
  ring

/-- C7 witness: the score formula applied to a concrete destination with
photogenic score 8 and vibe similarity one half, giving 59/100. -/
theorem c7_match_score_formula_witness :
    (⟨⟨1, "A", "L", "C", "", 8⟩, 59 / 100, "why"⟩ : ScoredDest) ∈
      score_destinations (fun _ _ => (1 : ℚ) / 2) (fun _ _ => "why") witness_profile
        [⟨1, "A", "L", "C", "", 8⟩] ∧
    (59 / 100 : ℚ) = 0.7 * (1 / 2) + 0.3 * (8 / 10) := by
  have hm : (⟨⟨1, "A", "L", "C", "", 8⟩, 59 / 100, "why"⟩ : ScoredDest) ∈
      score_destinations (fun _ _ => (1 : ℚ) / 2) (fun _ _ => "why") witness_profile
        [⟨1, "A", "L", "C", "", 8⟩] := by
    norm_num [score_destinations]
  refine ⟨hm, ?_⟩
  have h := c7_match_score_formula (fun _ _ => (1 : ℚ) / 2) (fun _ _ => "why")
    witness_profile [⟨1, "A", "L", "C", "", 8⟩] _ hm
  simpa using h

/-- C8 (spec-modelled retry wiring): image validation accepts only a
non-empty `https://` asset reference with obtainable dimensions whose
edges are both at least 1024; unobtainable dimensions are never accepted
and the loop proceeds to the next attempt within the budget; any accepted
result comes from an attempt within the budget that validated. -/
theorem c8_image_validation_policy (image_url : String) (fetched : Option (Nat × Nat)) :
    (validate_image_quality image_url none = false) ∧
    (validate_image_quality image_url fetched = true ↔
      image_url ≠ "" ∧ startswith image_url "https://" = true ∧
      ∃ w h, fetched = some (w, h) ∧ 1024 ≤ w ∧ 1024 ≤ h) ∧
    (∀ (oracle : Nat → String × Option (Nat × Nat)) (max_attempts k : Nat),
      (∀ i, i < k → (oracle i).2 = none) →
      validate_image_quality (oracle k).1 (oracle k).2 = true → k < max_attempts →
      generate_validate_loop oracle max_attempts = some ((oracle k).1, k + 1)) ∧
    (∀ (oracle : Nat → String × Option (Nat × Nat)) (max_attempts : Nat) (url : String)
        (n : Nat), generate_validate_loop oracle max_attempts = some (url, n) →
      n ≤ max_attempts ∧ (oracle (n - 1)).1 = url ∧
        validate_image_quality (oracle (n - 1)).1 (oracle (n - 1)).2 = true) := by
  refine ⟨validate_image_quality_none image_url, ?_, ?_, ?_⟩
  · unfold validate_image_quality
    constructor
    · intro hv
      by_cases h : (image_url == "" || !startswith image_url "https://") = true
      · simp [h] at hv
      · simp only [Bool.or_eq_true, Bool.not_eq_true'] at h
        push_neg at h
        match hf : fetched with
        | none => simp [h] at hv
        | some (w, hh) =>
          simp only [Bool.or_eq_true, beq_iff_eq] at h hv
          refine ⟨fun he => h.1 (by simp [he]), by simpa using h.2, w, hh, rfl, ?_, ?_⟩
          · by_cases hw : w < 1024
            · simp [hw, h] at hv
            · omega
          · by_cases hht : hh < 1024
            · simp [hht, h] at hv
            · omega
    · rintro ⟨h1, h2, w, hh, rfl, hw, hht⟩
      have hc : (image_url == "" || !startswith image_url "https://") = false := by
        simp [h1, h2]
      simp [hc]
      omega
  · intro oracle max_attempts k hnone hv hk
    have h := generate_validate_go_skip oracle k max_attempts 0
      (fun i _ hi2 => hnone i (by omega)) (by simpa using hv) hk
    simpa [generate_validate_loop] using h
  · intro oracle max_attempts url n h
    have hs := generate_validate_go_sound oracle max_attempts 0 url n
      (by simpa [generate_validate_loop] using h)
    exact ⟨by omega, hs.2.2.1, hs.2.2.2⟩

/-- C8 witness: a run whose first attempt has unobtainable dimensions is
not accepted there and is retried; the second attempt, a 1024x1536 image
behind an `https://` reference, is accepted with `attempts = 2`. -/
theorem c8_image_validation_policy_witness :
    validate_image_quality (image_oracle 0).1 (image_oracle 0).2 = false ∧
      generate_validate_loop image_oracle 3 = some ("https://img.example/a.png", 2) :=
  ⟨(c8_image_validation_policy "https://img.example/a.png" none).1,
    (c8_image_validation_policy "" none).2.2.1 image_oracle 3 1
      (fun i hi => by
        have h0 : i = 0 := by omega
        subst h0; rfl)
      (by decide) (by decide)⟩

/-- C9: every concept outside the set (flaneur, filmlog, midnight) makes
the camera, base-palette and props lookups return the filmlog defaults
instead of raising, and every season outside (spring, summer, fall,
winter) makes the seasonal modifiers fall back to the spring values. -/
theorem c9_lookup_fallbacks
    (get_rental_info : String → String) (get_purchase_links : String → List String)
    (get_color_names : List String → List String)
    (generate_specific_items : String → String → String → List String)
    (get_avoid_items : String → List String)
    (generate_shopping_tips : String → List String)
    (generate_sourcing_info : String → String)
    (generate_styling_tips : String → String → String)
    (concept season weather budget location_type : String) (count : Nat)
    (color_preferences : List String)
    (hc : concept ∉ ["flaneur", "filmlog", "midnight"])
    (hs : season ∉ ["spring", "summer", "fall", "winter"]) :
    recommend_camera get_rental_info get_purchase_links concept budget =
      recommend_camera get_rental_info get_purchase_links "filmlog" budget ∧
    (generate_outfit_suggestions get_color_names generate_specific_items get_avoid_items
        generate_shopping_tips concept season weather color_preferences).color_palette =
      palette_filmlog ∧
    (generate_outfit_suggestions get_color_names generate_specific_items get_avoid_items
        generate_shopping_tips concept season weather
        color_preferences).seasonal_additions = season_spring.add_colors ∧
    (generate_outfit_suggestions get_color_names generate_specific_items get_avoid_items
        generate_shopping_tips concept season weather
        color_preferences).recommended_fabrics = season_spring.fabrics ∧
    (recommend_props generate_sourcing_info generate_styling_tips concept location_type
        count).map (fun p => (p.name, p.purpose)) =
      (recommend_props generate_sourcing_info generate_styling_tips "filmlog"
        location_type count).map (fun p => (p.name, p.purpose)) := by
  simp only [List.mem_cons, List.mem_singleton, List.not_mem_nil] at hc hs
  push_neg at hc hs
  obtain ⟨hc1, hc2, hc3, _⟩ := hc
  obtain ⟨hs1, hs2, hs3, hs4, _⟩ := hs
  have hcam : CAMERA_DATABASE.lookup concept = none := by
    simp [CAMERA_DATABASE, List.lookup, beq_eq_false_iff_ne.mpr hc1,
      beq_eq_false_iff_ne.mpr hc2, beq_eq_false_iff_ne.mpr hc3]
  have hpal : base_palettes.lookup concept = none := by
    simp [base_palettes, List.lookup, beq_eq_false_iff_ne.mpr hc1,
      beq_eq_false_iff_ne.mpr hc2, beq_eq_false_iff_ne.mpr hc3]
  have hprops : PROPS_DATABASE.lookup concept = none := by
    simp [PROPS_DATABASE, List.lookup, beq_eq_false_iff_ne.mpr hc1,
      beq_eq_false_iff_ne.mpr hc2, beq_eq_false_iff_ne.mpr hc3]
  have hseason : seasonal_modifiers.lookup season = none := by
    simp [seasonal_modifiers, List.lookup, beq_eq_false_iff_ne.mpr hs1,
      beq_eq_false_iff_ne.mpr hs2, beq_eq_false_iff_ne.mpr hs3,
      beq_eq_false_iff_ne.mpr hs4]
  have hcamfl : CAMERA_DATABASE.lookup "filmlog" = some camera_filmlog := rfl
  have hpalfl : base_palettes.lookup "filmlog" = some palette_filmlog := rfl
  have hpropsfl : PROPS_DATABASE.lookup "filmlog" = some props_filmlog := rfl
  refine ⟨?_, ?_, ?_, ?_, ?_⟩
  · simp [recommend_camera, hcam, hcamfl]
  · simp [generate_outfit_suggestions, hpal]
  · simp [generate_outfit_suggestions, hseason]
  · simp [generate_outfit_suggestions, hseason]
  · simp only [recommend_props, hprops, hpropsfl, List.map_map, Option.getD_some]
    rfl

/-- C9 witness: the fallback theorem applied to the unknown concept
`"cyberpunk"` and the unknown season `"monsoon"`. -/
theorem c9_lookup_fallbacks_witness :
    ("cyberpunk" ∉ ["flaneur", "filmlog", "midnight"] ∧
      "monsoon" ∉ ["spring", "summer", "fall", "winter"]) ∧
    (generate_outfit_suggestions (fun _ => []) (fun _ _ _ => []) (fun _ => [])
        (fun _ => []) "cyberpunk" "monsoon" "sunny" []).color_palette =
      palette_filmlog :=
  ⟨⟨by decide, by decide⟩,
    (c9_lookup_fallbacks (fun _ => "") (fun _ => []) (fun _ => []) (fun _ _ _ => [])
      (fun _ => []) (fun _ => []) (fun _ => "") (fun _ _ => "") "cyberpunk" "monsoon"
      "sunny" "medium" "urban" 3 [] (by decide) (by decide)).2.1⟩

end TripKit
